import Mathlib

/-!
Verification of the cloudbot backup orchestrator (`src/main.py`).

The file shallowly embeds the `Event`/`ProgressEvent` signalling classes, the
`BackupEvents` bundle with its reflection-based `clear_all`, the body of
`BackupThread.run`, and the permission-gate functions of `Bot`.

Python attribute semantics matter here: `ProgressEvent` refers to `self.__lock`,
which Python name-mangles to `_ProgressEvent__lock`, while the lock created in
`Event.__init__` is stored as `_Event__lock`; likewise `_Event__result` is only
created on the first write.  Missing attributes raise `AttributeError`, so the
embedding models attribute access with `Except` and keeps one flag per mangled
attribute name.
-/

namespace Cloudbot

/-- Python runtime errors the modelled code can raise. -/
inductive PyErr
  | attributeError
  | keyError
  deriving Repr, DecidableEq

/-- Python values flowing through `Event.result`: `None`, booleans, strings and
the 3-tuples returned by the command helpers. -/
inductive PyVal
  | none
  | bool (b : Bool)
  | str (s : String)
  | tuple3 (a b c : PyVal)
  deriving Repr, DecidableEq

/-- Python truthiness of the modelled values: `None` and `False` are falsy, a
non-empty string is truthy, and a 3-tuple is always truthy. -/
def PyVal.truthy : PyVal → Bool
  | .none => false
  | .bool b => b
  | .str s => !s.isEmpty
  | .tuple3 _ _ _ => true

/-- The runtime class of an event object (`Event` or its subclass
`ProgressEvent`, `src/main.py` lines 22 and 52). -/
inductive EvClass
  | event
  | progressEvent
  deriving Repr, DecidableEq

/-- Instance state of an `Event`/`ProgressEvent` object.  `started`, `finished`
and `progressSignal` are the internal flags of the `threading.Event` members;
`eventLock`/`progressLock` record whether the mangled attributes `_Event__lock`
and `_ProgressEvent__lock` exist on the instance; `resultAttr` and
`progressValueAttr` are the mangled `_Event__result` and
`_ProgressEvent__progress_value` slots, `Option.none` meaning the attribute was
never created (reading it raises `AttributeError`). -/
structure EventObj where
  cls : EvClass
  started : Bool
  finished : Bool
  progressSignal : Bool
  eventLock : Bool
  progressLock : Bool
  resultAttr : Option PyVal
  progressValueAttr : Option ℚ
  deriving Repr, DecidableEq

/-- `Event.__init__` (lines 24-28): creates the `started`/`finished` signals and
`_Event__lock`; it never creates `_Event__result`. -/
def Event.init : EventObj :=
  { cls := .event
    started := false
    finished := false
    progressSignal := false
    eventLock := true
    progressLock := false
    resultAttr := none
    progressValueAttr := none }

/-- `ProgressEvent.__init__` (lines 54-56): runs `Event.__init__` and adds the
`progress` signal.  No code ever creates `_ProgressEvent__lock` or
`_ProgressEvent__progress_value`. -/
def ProgressEvent.init : EventObj :=
  { Event.init with cls := .progressEvent }

/-- The `result` property getter (lines 30-33): enters `_Event__lock` and
returns a deep copy of `_Event__result`; accessing either attribute raises
`AttributeError` when absent. -/
def EventObj.result_get (e : EventObj) : Except PyErr PyVal :=
  if e.eventLock then
    match e.resultAttr with
    | some v => .ok v
    | none => .error .attributeError
  else .error .attributeError

/-- The `result` property setter (lines 35-38): enters `_Event__lock` and stores
a deep copy of the value in `_Event__result`. -/
def EventObj.result_set (e : EventObj) (v : PyVal) : Except PyErr EventObj :=
  if e.eventLock then .ok { e with resultAttr := some v }
  else .error .attributeError

/-- `emit_started` (line 26) is the bound method `started.set`. -/
def EventObj.emit_started (e : EventObj) : EventObj :=
  { e with started := true }

/-- `Event.emit_finished` (lines 40-42): stores the result then sets the
`finished` signal. -/
def EventObj.emit_finished (e : EventObj) (r : PyVal) : Except PyErr EventObj := do
  let e ← e.result_set r
  .ok { e with finished := true }

/-- The `progress_value` property getter (lines 58-61).  Written inside class
`ProgressEvent`, so `self.__lock` mangles to `_ProgressEvent__lock`, an
attribute that is never created: the `with self.__lock` line raises
`AttributeError` before `_ProgressEvent__progress_value` is even consulted. -/
def EventObj.progress_value_get (e : EventObj) : Except PyErr ℚ :=
  if e.progressLock then
    match e.progressValueAttr with
    | some v => .ok v
    | none => .error .attributeError
  else .error .attributeError

/-- The `progress_value` property setter (lines 63-66): enters the (missing)
`_ProgressEvent__lock`, then would store `min(1.0, max(0.0, float(progress)))`. -/
def EventObj.progress_value_set (e : EventObj) (v : ℚ) : Except PyErr EventObj :=
  if e.progressLock then
    .ok { e with progressValueAttr := some (min 1 (max 0 v)) }
  else .error .attributeError

/-- `ProgressEvent.emit_progress` (lines 68-70): writes through the
`progress_value` setter, then sets the `progress` signal. -/
def EventObj.emit_progress (e : EventObj) (v : ℚ) : Except PyErr EventObj := do
  let e ← e.progress_value_set v
  .ok { e with progressSignal := true }

/-- The names visited by `for name in dir(self)` in `Event.clear` whose
`__getattribute__` either runs a property getter or yields a `threading.Event`.
`dir` returns names sorted; methods, dunder names and the mangled instance
attributes are plain reads with no effect and are omitted. -/
inductive DirAttr
  | finished
  | progress
  | progress_value
  | result
  | started
  deriving Repr, DecidableEq

/-- Sorted `dir(self)` effects per class: a plain `Event` exposes `finished`,
`result`, `started`; a `ProgressEvent` additionally exposes `progress` and
`progress_value` (sorted between `finished` and `result`). -/
def dirAttrs : EvClass → List DirAttr
  | .event => [.finished, .result, .started]
  | .progressEvent => [.finished, .progress, .progress_value, .result, .started]

/-- One iteration of the loop in `Event.clear` (lines 46-49):
`self.__getattribute__(name)` runs property getters (which may raise), and any
`threading.Event` found is cleared. -/
def getattrStep (e : EventObj) : DirAttr → Except PyErr EventObj
  | .finished => .ok { e with finished := false }
  | .progress => .ok { e with progressSignal := false }
  | .started => .ok { e with started := false }
  | .result => do
      let _ ← e.result_get
      .ok e
  | .progress_value => do
      let _ ← e.progress_value_get
      .ok e

/-- `Event.clear` (lines 44-49): `self.result = None`, then the reflection loop
over `dir(self)`.  On a `ProgressEvent` the loop reaches the `progress_value`
property after clearing `finished` and `progress`, and its getter raises
`AttributeError`, so `started` is never cleared and the call raises. -/
def EventObj.clear (e : EventObj) : Except PyErr EventObj := do
  let e ← e.result_set PyVal.none
  (dirAttrs e.cls).foldlM getattrStep e

/-- `BackupEvents` (lines 85-93): the five named stage events; `data_backup` is
the `ProgressEvent`. -/
structure BackupEvents where
  enable_maintenance : EventObj
  disable_maintenance : EventObj
  database_backup : EventObj
  data_backup : EventObj
  backup : EventObj
  deriving Repr, DecidableEq

/-- `BackupEvents.__init__` (lines 87-93). -/
def BackupEvents.init : BackupEvents :=
  { enable_maintenance := Event.init
    disable_maintenance := Event.init
    database_backup := Event.init
    data_backup := ProgressEvent.init
    backup := Event.init }

/-- `BaseEvents.clear_all` (lines 78-82): iterates `dir(self)` in sorted order
(`backup`, `clear_all`, `data_backup`, `database_backup`, `disable_maintenance`,
`enable_maintenance`) and calls `clear()` on every `Event`-typed attribute, so
the clears run in that order and an exception aborts the remaining ones. -/
def BackupEvents.clear_all (ev : BackupEvents) : Except PyErr BackupEvents := do
  let b ← ev.backup.clear
  let dat ← ev.data_backup.clear
  let db ← ev.database_backup.clear
  let dis ← ev.disable_maintenance.clear
  let en ← ev.enable_maintenance.clear
  .ok { enable_maintenance := en
        disable_maintenance := dis
        database_backup := db
        data_backup := dat
        backup := b }

/-- Outcome of the `os.mkdir` call in `run` (lines 123-134): success, or one of
the two handled exceptions. -/
inductive MkdirOutcome
  | ok
  | fileExists
  | fileNotFound
  deriving Repr, DecidableEq

/-- Result triple of one external command: `(returncode == 0, stdout, stderr)`
(lines 187, 199, 213, 225). -/
structure CmdResult where
  success : Bool
  stdout : String
  stderr : String
  deriving Repr, DecidableEq

/-- The external world a single `run` interacts with: the `os.mkdir` outcome and
the result of each of the four shell commands. -/
structure Env where
  mkdir : MkdirOutcome
  enable : CmdResult
  dump : CmdResult
  sync : CmdResult
  disable : CmdResult
  deriving Repr, DecidableEq

/-- The messages handed to `send_message` during a run, tagged by call site;
failure messages carry the `stderr` string interpolated into them. -/
inductive Msg
  | dirExists
  | rootMissing
  | enablingMaintenance
  | maintenanceFail (stderr : String)
  | dumpFail (stderr : String)
  | dataFail (stderr : String)
  deriving Repr, DecidableEq

/-- Observable outcome of a run: the final event states, the messages handed to
`send_message` (oldest first), and how many run directories were created. -/
structure RunState where
  events : BackupEvents
  msgs : List Msg
  dirsCreated : Nat
  deriving Repr, DecidableEq

/-- Lines 119-174 of `BackupThread.run`: everything after the initial
`self.events.clear_all()`.  Faithful to the source, including line 160, where
`success = self.rsync()` binds the whole `(success, stdout, stderr)` tuple (the
other three call sites unpack it), so `if not success` on line 162 tests the
truthiness of a non-empty tuple; and line 164, which interpolates the `stderr`
variable still bound by the `mysql_dump` call of line 151.  The message of line
202-204 is sent from inside `enable_maintenance()` before its command runs. -/
def BackupThread.run_body (env : Env) (ev0 : BackupEvents) : Except PyErr RunState := do
  let (failed, msgs, dirsCreated) :=
    match env.mkdir with
    | .ok => (false, ([] : List Msg), 1)
    | .fileExists => (true, [Msg.dirExists], 0)
    | .fileNotFound => (true, [Msg.rootMissing], 0)
  if failed then
    let b ← ev0.backup.emit_finished (.bool false)
    .ok { events := { ev0 with backup := b }, msgs := msgs, dirsCreated := dirsCreated }
  else
    let ev := { ev0 with enable_maintenance := ev0.enable_maintenance.emit_started }
    let msgs := msgs ++ [Msg.enablingMaintenance]
    let success := env.enable.success
    let stderr := env.enable.stderr
    let em ← ev.enable_maintenance.emit_finished (.bool success)
    let ev := { ev with enable_maintenance := em }
    if !success then
      let msgs := msgs ++ [Msg.maintenanceFail stderr]
      let b ← ev.backup.emit_finished (.bool false)
      .ok { events := { ev with backup := b }, msgs := msgs, dirsCreated := dirsCreated }
    else
      let ev := { ev with database_backup := ev.database_backup.emit_started }
      let success := env.dump.success
      let stderr := env.dump.stderr
      let db ← ev.database_backup.emit_finished (.bool success)
      let ev := { ev with database_backup := db }
      let (failed, msgs, ev) ←
        if !success then
          pure (true, msgs ++ [Msg.dumpFail stderr], ev)
        else do
          let ev := { ev with data_backup := ev.data_backup.emit_started }
          let successTuple :=
            PyVal.tuple3 (.bool env.sync.success) (.str env.sync.stdout) (.str env.sync.stderr)
          let da ← ev.data_backup.emit_finished successTuple
          let ev := { ev with data_backup := da }
          if !successTuple.truthy then
            pure (true, msgs ++ [Msg.dataFail stderr], ev)
          else
            pure (failed, msgs, ev)
      let ev := { ev with disable_maintenance := ev.disable_maintenance.emit_started }
      let success := env.disable.success
      let dm ← ev.disable_maintenance.emit_finished (.bool success)
      let ev := { ev with disable_maintenance := dm }
      let failed := failed || !success
      let b ← ev.backup.emit_finished (.bool (!failed))
      .ok { events := { ev with backup := b }, msgs := msgs, dirsCreated := dirsCreated }

/-- `BackupThread.run` (lines 117-174): `self.events.clear_all()` first (line
118), then the rest of the body. -/
def BackupThread.run (env : Env) (ev : BackupEvents) : Except PyErr RunState := do
  let ev ← ev.clear_all
  BackupThread.run_body env ev

/-- `CmdPermission` (lines 231-235). -/
inductive CmdPermission
  | OWNER
  | ADMIN
  | USER
  | STRANGER
  deriving Repr, DecidableEq

/-- The `auto()` member values: `OWNER=1, ADMIN=2, USER=3, STRANGER=4`. -/
def CmdPermission.value : CmdPermission → Nat
  | .OWNER => 1
  | .ADMIN => 2
  | .USER => 3
  | .STRANGER => 4

/-- One entry of the `known_users` registry: an id and a role string. -/
structure KnownUser where
  id : Int
  role : String
  deriving Repr, DecidableEq

/-- `CmdPermission[name]` member lookup by name; `Option.none` models the
`KeyError` raised for a string that names no member. -/
def memberFromName : String → Option CmdPermission
  | "OWNER" => some .OWNER
  | "ADMIN" => some .ADMIN
  | "USER" => some .USER
  | "STRANGER" => some .STRANGER
  | _ => none

/-- `Bot.is_user_known` (lines 441-444): `any(d["id"] == user_id for d in
self.known_users)`. -/
def is_user_known (users : List KnownUser) (uid : Int) : Bool :=
  users.any fun d => d.id == uid

/-- `str.upper()` on the ASCII role names: upper-case every character. -/
def pyUpper (s : String) : String :=
  ⟨s.data.map Char.toUpper⟩

/-- `Bot.user_permission_level` (lines 446-452): first entry matching the id,
`None` when absent; otherwise `CmdPermission[role.upper()]`, raising `KeyError`
for an unrecognised role string. -/
def user_permission_level (users : List KnownUser) (uid : Int) :
    Except PyErr (Option CmdPermission) :=
  match users.find? (fun item => item.id == uid) with
  | none => .ok none
  | some item =>
    match memberFromName (pyUpper item.role) with
    | some p => .ok (some p)
    | none => .error .keyError

/-- `Bot.user_has_permission` (lines 454-460): `False` for unknown users;
otherwise `False` iff `required_permission.value < user_level.value` (reading
`.value` on `None` would raise `AttributeError`). -/
def user_has_permission (users : List KnownUser) (uid : Int)
    (required_permission : CmdPermission) : Except PyErr Bool := do
  if !is_user_known users uid then
    .ok false
  else do
    let user_level ← user_permission_level users uid
    match user_level with
    | none => .error .attributeError
    | some lvl =>
      if required_permission.value < lvl.value then .ok false
      else .ok true

/-- Result of the wrapper built by the `permission` decorator: either the
wrapped handler's return value or `ConversationHandler.END`. -/
inductive HandlerOutcome (α : Type)
  | handled (a : α)
  | conversationEnd
  deriving Repr, DecidableEq

/-- The wrapper produced by `permission(permission_level)` (lines 256-269): it
calls the handler only when `user_has_permission` accepts, and otherwise
returns `ConversationHandler.END` without invoking it. -/
def permission_wrapper {α : Type} (users : List KnownUser)
    (permission_level : CmdPermission) (uid : Int) (f : Unit → α) :
    Except PyErr (HandlerOutcome α) := do
  let ok ← user_has_permission users uid permission_level
  if ok then .ok (.handled (f ())) else .ok .conversationEnd

/-- The happy-path environment: the root directory exists, the run directory is
fresh (`os.mkdir` succeeds) and all four external commands exit with status 0. -/
def envA : Env :=
  { mkdir := .ok, enable := ⟨true, "", ""⟩, dump := ⟨true, "", ""⟩,
    sync := ⟨true, "", ""⟩, disable := ⟨true, "", ""⟩ }

/-- Environment where only the `rsync` data-sync command exits non-zero. -/
def envC3 : Env := { envA with sync := ⟨false, "", "sync boom"⟩ }

/-- Environment where only the enable-maintenance command exits non-zero. -/
def envC4 : Env := { envA with enable := ⟨false, "", "occ err"⟩ }

/-- Environment where only the `mysqldump` command exits non-zero. -/
def envC5 : Env := { envA with dump := ⟨false, "", "dump boom"⟩ }

/-- Environment where only the disable-maintenance command exits non-zero. -/
def envC8 : Env := { envA with disable := ⟨false, "", "occ off err"⟩ }

/-- A concrete operator registry with one owner, one admin and one user. -/
def users0 : List KnownUser := [⟨1, "owner"⟩, ⟨2, "admin"⟩, ⟨3, "user"⟩]

/-- C1: the claim says a run whose root directory exists, whose run directory is
fresh and whose three external commands all succeed reaches DONE with
`backup.result == true`, one run subdirectory created and no failure
notification.  On the code this fails before any stage: `run()` calls
`self.events.clear_all()` (line 118), which clears `backup` and then calls
`clear()` on the `ProgressEvent` `data_backup`; the reflection loop there reads
the `progress_value` property, whose getter enters `self.__lock`, name-mangled
to the never-created `_ProgressEvent__lock`, raising `AttributeError`.  The
thread dies, no directory is created and `backup` never finishes. -/
theorem c1_happy_path_run_raises :
    BackupThread.run envA BackupEvents.init = .error .attributeError := rfl

/-- C2: the claim says `emit_progress(v)` stores `v` clamped to `[0, 1]`
(`-0.3, 0.0, 0.5, 1.0, 1.7` storing `0.0, 0.0, 0.5, 1.0, 1.0`) and completes
without error.  On the code every such call raises `AttributeError`: the
`progress_value` setter's `with self.__lock` refers to the name-mangled
`_ProgressEvent__lock`, which no code creates, so nothing is stored and the
`progress` signal is never set. -/
theorem c2_emit_progress_raises :
    ProgressEvent.init.emit_progress (-3/10) = .error .attributeError
    ∧ ProgressEvent.init.emit_progress 0 = .error .attributeError
    ∧ ProgressEvent.init.emit_progress (1/2) = .error .attributeError
    ∧ ProgressEvent.init.emit_progress 1 = .error .attributeError
    ∧ ProgressEvent.init.emit_progress (17/10) = .error .attributeError :=
  ⟨rfl, rfl, rfl, rfl, rfl⟩

/-- C3: the claim says a failed sync after a successful dump finishes
`data_backup` with `false`, sets the `failed` flag, still disables maintenance
and makes `backup` finish `false`.  On the code, first, `run()` raises
`AttributeError` in `clear_all` before any stage; second, even the stage logic
of lines 119-174 evaluated on its own misses the failure: line 160 binds the
entire `(success, stdout, stderr)` tuple returned by `rsync()` to `success`, so
`data_backup` finishes with that tuple as its result, `if not success` (line
162) sees a truthy non-empty tuple, `failed` stays unset, no failure message is
sent and `backup` finishes with `True`. -/
theorem c3_sync_failure_not_detected :
    BackupThread.run envC3 BackupEvents.init = .error .attributeError
    ∧ (BackupThread.run_body envC3 BackupEvents.init).map
        (fun st => (st.events.data_backup.resultAttr, st.events.backup.resultAttr, st.msgs))
      = .ok (some (PyVal.tuple3 (.bool false) (.str "") (.str "sync boom")),
             some (PyVal.bool true), [Msg.enablingMaintenance]) :=
  ⟨rfl, rfl⟩

/-- C4: the claim says a failed enable-maintenance command aborts the run with
`database_backup`, `data_backup` and `disable_maintenance` never started and
`backup` finished `false`.  On the code `run()` raises `AttributeError` in
`clear_all` (line 118) before the maintenance command can even run, so `backup`
never finishes at all.  The stage logic of lines 119-174 evaluated on its own
does behave as claimed (second conjunct), confirming the claim describes the
intent of the code after the crash point. -/
theorem c4_enable_failure_run_raises :
    BackupThread.run envC4 BackupEvents.init = .error .attributeError
    ∧ (BackupThread.run_body envC4 BackupEvents.init).map
        (fun st => (st.events.database_backup.started, st.events.data_backup.started,
                    st.events.disable_maintenance.started, st.events.backup.resultAttr))
      = .ok (false, false, false, some (PyVal.bool false)) :=
  ⟨rfl, rfl⟩

/-- C5: the claim says a failed dump with successful maintenance toggles
finishes `database_backup` with `false`, never starts `data_backup`, finishes
`disable_maintenance` with `true` and finishes `backup` with `false`.  On the
code `run()` raises `AttributeError` in `clear_all` before any stage, so none
of these events is ever emitted.  The stage logic of lines 119-174 evaluated on
its own does behave exactly as claimed (second conjunct). -/
theorem c5_dump_failure_run_raises :
    BackupThread.run envC5 BackupEvents.init = .error .attributeError
    ∧ (BackupThread.run_body envC5 BackupEvents.init).map
        (fun st => (st.events.database_backup.resultAttr, st.events.data_backup.started,
                    st.events.disable_maintenance.resultAttr, st.events.backup.resultAttr))
      = .ok (some (PyVal.bool false), false, some (PyVal.bool true), some (PyVal.bool false)) :=
  ⟨rfl, rfl⟩

/-- C6: the claim says `emit_started(); emit_finished(r); clear()` returns any
Stage Event, including the Progress variant, to its construction state.  On the
code the Progress variant raises: `clear()`'s reflection loop reaches the
`progress_value` property (after clearing `finished` and `progress`) and its
getter raises `AttributeError` on the missing `_ProgressEvent__lock`, so
`started` is even left set.  The plain `Event` variant does end not-started,
not-finished with stored result `None` (second conjunct). -/
theorem c6_clear_on_progress_event_raises :
    (do
      let e := ProgressEvent.init.emit_started
      let e ← e.emit_finished (PyVal.bool true)
      e.clear) = (.error .attributeError : Except PyErr EventObj)
    ∧ (do
        let e := Event.init.emit_started
        let e ← e.emit_finished (PyVal.bool true)
        e.clear)
      = Except.ok { cls := .event, started := false, finished := false,
                    progressSignal := false, eventLock := true, progressLock := false,
                    resultAttr := some PyVal.none, progressValueAttr := none } :=
  ⟨rfl, rfl⟩

/-- C7: the claim says reading `result` on a freshly constructed Stage Event
succeeds and returns the default `None`.  On the code it raises
`AttributeError`: `Event.__init__` never creates `_Event__result`, which only
comes into existence on the first write through the setter, so the getter's
`self.__result` fails. -/
theorem c7_fresh_result_read_raises :
    Event.init.result_get = .error .attributeError := rfl

/-- C8: the claim says a failed disable-maintenance command is reported via at
least one outbound notification.  On the code no notification about that
failure can ever be sent: `run()` raises `AttributeError` in `clear_all` before
any stage, and even the stage logic of lines 119-174 on its own merely sets
`failed = True` in the `if not success` branch after `disable_maintenance()`
(lines 171-172) without any `send_message` call, so the only message handed to
the sink is the informational "Enabling maintenance mode." one. -/
theorem c8_disable_failure_without_notification :
    BackupThread.run envC8 BackupEvents.init = .error .attributeError
    ∧ (BackupThread.run_body envC8 BackupEvents.init).map
        (fun st => (st.msgs, st.events.disable_maintenance.resultAttr,
                    st.events.backup.resultAttr))
      = .ok ([Msg.enablingMaintenance], some (PyVal.bool false), some (PyVal.bool false)) :=
  ⟨rfl, rfl⟩

/-- C9: for a caller present in the registry whose role string names a
permission member, `user_has_permission` accepts exactly when the caller's role
is at least as privileged as the required permission under the ordering
owner > admin > user > stranger (numerically, role value ≤ required value with
`OWNER=1, ADMIN=2, USER=3, STRANGER=4`), and the wrapper built by the
`permission` decorator invokes the handler exactly on acceptance, returning
`ConversationHandler.END` without invoking it otherwise. -/
theorem c9_permission_gate_characterisation (users : List KnownUser) (uid : Int)
    (req : CmdPermission) (u : KnownUser) (r : CmdPermission) {α : Type} (f : Unit → α)
    (hfind : users.find? (fun x => x.id == uid) = some u)
    (hrole : memberFromName (pyUpper u.role) = some r) :
    user_has_permission users uid req = .ok (decide (r.value ≤ req.value))
    ∧ permission_wrapper users req uid f
      = .ok (if r.value ≤ req.value then .handled (f ()) else .conversationEnd) := by
  have hpred : (u.id == uid) = true :=
    @List.find?_some _ (fun x : KnownUser => x.id == uid) u users hfind
  have hmem : u ∈ users :=
    @List.mem_of_find?_eq_some _ (fun x : KnownUser => x.id == uid) u users hfind
  have hknown : is_user_known users uid = true := by
    unfold is_user_known
    exact List.any_eq_true.mpr ⟨u, hmem, hpred⟩
  have hlvl : user_permission_level users uid = .ok (some r) := by
    unfold user_permission_level
    rw [hfind]
    show (match memberFromName (pyUpper u.role) with
          | some p => Except.ok (some p)
          | none => Except.error PyErr.keyError) = _
    rw [hrole]
  have h1 : user_has_permission users uid req = .ok (decide (r.value ≤ req.value)) := by
    unfold user_has_permission
    rw [hknown, hlvl]
    show (if req.value < r.value then Except.ok false else Except.ok true) = _
    by_cases hc : req.value < r.value
    · rw [if_pos hc, decide_eq_false (Nat.not_le.mpr hc)]
    · rw [if_neg hc, decide_eq_true (Nat.le_of_not_lt hc)]
  refine ⟨h1, ?_⟩
  unfold permission_wrapper
  rw [h1]
  show (if decide (r.value ≤ req.value) = true
        then Except.ok (HandlerOutcome.handled (f ()))
        else Except.ok HandlerOutcome.conversationEnd) = _
  by_cases hc : r.value ≤ req.value
  · rw [if_pos (by simpa using hc), if_pos hc]
  · rw [if_neg (by simpa using hc), if_neg hc]

/-- Witness for C9: in the concrete registry `users0`, the admin (id 2) passes
a `USER`-level check and the handler runs. -/
theorem c9_permission_gate_characterisation_witness :
    user_has_permission users0 2 CmdPermission.USER
      = .ok (decide (CmdPermission.ADMIN.value ≤ CmdPermission.USER.value))
    ∧ permission_wrapper users0 CmdPermission.USER 2 (fun _ => (7 : Nat))
      = .ok (if CmdPermission.ADMIN.value ≤ CmdPermission.USER.value
             then .handled 7 else .conversationEnd) :=
  c9_permission_gate_characterisation users0 2 CmdPermission.USER ⟨2, "admin"⟩
    CmdPermission.ADMIN (fun _ => (7 : Nat)) (by rfl) (by rfl)

/-- C10: for a caller id that matches no entry of the known-operator registry,
`user_has_permission` returns `False` for every required permission level,
`STRANGER` included, and the decorator wrapper ends the conversation without
invoking the handler. -/
theorem c10_unknown_user_rejected (users : List KnownUser) (uid : Int)
    (req : CmdPermission) {α : Type} (f : Unit → α)
    (h : ∀ u ∈ users, u.id ≠ uid) :
    user_has_permission users uid req = .ok false
    ∧ permission_wrapper users req uid f = .ok .conversationEnd := by
  have hk : is_user_known users uid = false := by
    unfold is_user_known
    rw [List.any_eq_false]
    intro x hx
    simp [h x hx]
  have h1 : user_has_permission users uid req = .ok false := by
    unfold user_has_permission
    rw [hk]
    rfl
  refine ⟨h1, ?_⟩
  unfold permission_wrapper
  rw [h1]
  rfl

/-- Witness for C10: id 99 is absent from `users0` and is rejected even for a
`STRANGER`-level command. -/
theorem c10_unknown_user_rejected_witness :
    user_has_permission users0 99 CmdPermission.STRANGER = .ok false
    ∧ permission_wrapper users0 CmdPermission.STRANGER 99 (fun _ => (7 : Nat))
      = .ok .conversationEnd :=
  c10_unknown_user_rejected users0 99 CmdPermission.STRANGER (fun _ => (7 : Nat)) (by decide)

end Cloudbot
